import Mathlib

/-!
Verification of the status-change alerting and task orchestration engine of
the pi-hole-automation repository.  Each module's decision logic is embedded
as pure Lean functions; external effects (process execution, the state file,
outbound messages) are modelled as explicit inputs and outputs.
-/

namespace PiHole

/-! ### Down-alert module (src/down_alert/scripts/down_alert.py)

State file record: `{"pihole_status": <string>, "internet": <bool>}`.
`load_state` falls back to `{"pihole_status": "unknown", "internet": True}`
when no state file exists.  The main logic compares the freshly observed
booleans against the stored record, appends alert messages on change, and
updates the record in place.
-/

namespace DownAlert

structure DownState where
  pihole_status : String
  internet : Bool
  deriving DecidableEq

/-- `load_state`: the stored record when present, else the default
`{"pihole_status": "unknown", "internet": True}`. -/
def load_state (persisted : Option DownState) : DownState :=
  persisted.getD ⟨"unknown", true⟩

/-- `"up" if current_pihole else "down"` -/
def derivedLabel (up : Bool) : String :=
  if up then "up" else "down"

def piholeUpMsg : String := "✅ Pi-hole is BACK UP!"
def piholeDownMsg : String := "⚠️ Pi-hole is DOWN!"
def internetUpMsg : String := "✅ Internet connection RESTORED!"
def internetDownMsg : String := "⚠️ Internet connection LOST!"

/-- One invocation of the main logic (lines 112-138 of down_alert.py):
given the loaded state and the two fresh observations, return the list of
alert messages appended in order and the updated state that is persisted. -/
def down_alert_step (st : DownState) (current_pihole current_internet : Bool) :
    List String × DownState :=
  let (alerts₁, st₁) :=
    if st.pihole_status ≠ derivedLabel current_pihole then
      ([if current_pihole then piholeUpMsg else piholeDownMsg],
       { st with pihole_status := derivedLabel current_pihole })
    else ([], st)
  let (alerts₂, st₂) :=
    if st₁.internet ≠ current_internet then
      (alerts₁ ++ [if current_internet then internetUpMsg else internetDownMsg],
       { st₁ with internet := current_internet })
    else (alerts₁, st₁)
  (alerts₂, st₂)

/-- A sequence of consecutive runs, each persisting its updated record which
the next run loads; all alerts are concatenated in emission order. -/
def down_alert_runs (st : DownState) (obs : List (Bool × Bool)) :
    List String × DownState :=
  match obs with
  | [] => ([], st)
  | o :: rest =>
    ((down_alert_step st o.1 o.2).1
        ++ (down_alert_runs (down_alert_step st o.1 o.2).2 rest).1,
     (down_alert_runs (down_alert_step st o.1 o.2).2 rest).2)

/-- Number of service-domain alerts among the emitted messages. -/
def countService (msgs : List String) : Nat :=
  msgs.countP (fun m => m = piholeUpMsg || m = piholeDownMsg)

/-- Number of internet-domain alerts among the emitted messages. -/
def countInternet (msgs : List String) : Nat :=
  msgs.countP (fun m => m = internetUpMsg || m = internetDownMsg)

lemma down_alert_step_state (st : DownState) (s i : Bool) :
    (down_alert_step st s i).2 = ⟨derivedLabel s, i⟩ := by
  cases st with
  | mk p b =>
    simp only [down_alert_step]
    by_cases hp : p ≠ derivedLabel s <;> by_cases hb : b ≠ i <;>
      simp_all [down_alert_step]

lemma down_alert_step_fixed (s i : Bool) :
    down_alert_step ⟨derivedLabel s, i⟩ s i = ([], ⟨derivedLabel s, i⟩) := by
  simp [down_alert_step]

lemma down_alert_runs_fixed (s i : Bool) (n : Nat) :
    down_alert_runs ⟨derivedLabel s, i⟩ (List.replicate n (s, i)) =
      ([], ⟨derivedLabel s, i⟩) := by
  induction n with
  | zero => simp [down_alert_runs]
  | succ k ih => simp [List.replicate_succ, down_alert_runs, down_alert_step_fixed, ih]

lemma countService_step (st : DownState) (s i : Bool) :
    countService (down_alert_step st s i).1 =
      if st.pihole_status = derivedLabel s then 0 else 1 := by
  cases st with
  | mk p b =>
    simp only [down_alert_step]
    by_cases hp : p ≠ derivedLabel s <;> by_cases hb : b ≠ i <;>
      cases s <;> cases i <;>
        simp_all [countService, derivedLabel, piholeUpMsg, piholeDownMsg,
          internetUpMsg, internetDownMsg, List.countP, List.countP.go]

lemma countInternet_step (st : DownState) (s i : Bool) :
    countInternet (down_alert_step st s i).1 =
      if st.internet = i then 0 else 1 := by
  cases st with
  | mk p b =>
    simp only [down_alert_step]
    by_cases hp : p ≠ derivedLabel s <;> by_cases hb : b ≠ i <;>
      cases s <;> cases i <;>
        simp_all [countInternet, derivedLabel, piholeUpMsg, piholeDownMsg,
          internetUpMsg, internetDownMsg, List.countP, List.countP.go]

lemma down_alert_runs_replicate (st : DownState) (s i : Bool) (n : Nat) :
    (down_alert_runs st (List.replicate (n + 1) (s, i))).1 =
      (down_alert_step st s i).1 := by
  simp [List.replicate_succ, down_alert_runs, down_alert_step_state,
    down_alert_runs_fixed]

end DownAlert

/-! ### Monitor module (src/monitor/scripts/monitor.py)

`check_alerts(metrics, prev_alerts)` iterates over the four sampled metrics
(dict insertion order `cpu, ram, disk, temp`), marks `alerts[key] = True` and
appends a message line when the non-null value exceeds its threshold (setting
`send_alert` when forced or the metric was not previously flagged), and marks
`alerts[key] = False` otherwise (including when the value is null).  Sampled
values are floats; they are modelled as rationals.  `prev_alerts.get(key,
False)` is modelled by a total boolean-valued map.
-/

namespace Monitor

inductive MetricKey | cpu | ram | disk | temp
  deriving DecidableEq

/-- The `THRESHOLDS` table of monitor.py. -/
def THRESHOLDS : MetricKey → ℚ
  | .cpu => 85
  | .ram => 90
  | .disk => 90
  | .temp => 75

/-- `key.upper()` for the message line. -/
def keyUpper : MetricKey → String
  | .cpu => "CPU"
  | .ram => "RAM"
  | .disk => "DISK"
  | .temp => "TEMP"

/-- Iteration order of `metrics.items()`: the dict built by `get_metrics`. -/
def metricKeys : List MetricKey := [.cpu, .ram, .disk, .temp]

/-- The message line appended for a breaching metric. -/
def metricLine (key : MetricKey) (value threshold : ℚ) : String :=
  keyUpper key ++ ": " ++ toString value ++ "% (Threshold: "
    ++ toString threshold ++ "%)"

/-- `value is not None and value > threshold` for one metric. -/
def breachedB (value : Option ℚ) (threshold : ℚ) : Bool :=
  match value with
  | some x => decide (x > threshold)
  | none => false

/-- One iteration of the `for key, value in metrics.items()` loop, acting on
the accumulator `(send_alert, alerts, msg_lines)`. -/
def check_step (force : Bool) (metrics : MetricKey → Option ℚ)
    (prev_alerts : MetricKey → Bool)
    (acc : Bool × (MetricKey → Bool) × List String) (key : MetricKey) :
    Bool × (MetricKey → Bool) × List String :=
  let threshold := THRESHOLDS key
  match metrics key with
  | some value =>
    if value > threshold then
      ((acc.1 || (force || !prev_alerts key)),
       Function.update acc.2.1 key true,
       acc.2.2 ++ [metricLine key value threshold])
    else (acc.1, Function.update acc.2.1 key false, acc.2.2)
  | none => (acc.1, Function.update acc.2.1 key false, acc.2.2)

/-- `check_alerts(metrics, prev_alerts)` with the module-level `FORCE_CHECK`
flag made an explicit argument; returns `(send_alert, alerts, message)`.
The fresh `alerts` dict, whose keys are exactly those of `metrics`, is
modelled as a total map (it assigns every one of the four keys). -/
def check_alerts (force : Bool) (metrics : MetricKey → Option ℚ)
    (prev_alerts : MetricKey → Bool) :
    Bool × (MetricKey → Bool) × String :=
  let r := metricKeys.foldl (check_step force metrics prev_alerts)
    (false, fun _ => false, ["⚠️ Monitor Alert"])
  (r.1, r.2.1, String.intercalate "\n" r.2.2)

lemma check_step_send (force : Bool) (m : MetricKey → Option ℚ)
    (p : MetricKey → Bool) (acc : Bool × (MetricKey → Bool) × List String)
    (key : MetricKey) :
    (check_step force m p acc key).1 =
      (acc.1 || (breachedB (m key) (THRESHOLDS key) && (force || !p key))) := by
  unfold check_step breachedB
  cases m key with
  | none => simp
  | some v => by_cases h : v > THRESHOLDS key <;> simp [h]

lemma check_step_flags (force : Bool) (m : MetricKey → Option ℚ)
    (p : MetricKey → Bool) (acc : Bool × (MetricKey → Bool) × List String)
    (key k : MetricKey) :
    (check_step force m p acc key).2.1 k =
      Function.update acc.2.1 key (breachedB (m key) (THRESHOLDS key)) k := by
  unfold check_step breachedB
  cases m key with
  | none => simp
  | some v => by_cases h : v > THRESHOLDS key <;> simp [h]

lemma check_step_msg (force : Bool) (m : MetricKey → Option ℚ)
    (p : MetricKey → Bool) (acc : Bool × (MetricKey → Bool) × List String)
    (key : MetricKey) :
    (check_step force m p acc key).2.2 =
      acc.2.2 ++ (if breachedB (m key) (THRESHOLDS key) then
        [metricLine key ((m key).getD 0) (THRESHOLDS key)] else []) := by
  unfold check_step breachedB
  cases m key with
  | none => simp
  | some v => by_cases h : v > THRESHOLDS key <;> simp [h]

lemma check_foldl_send (force : Bool) (m : MetricKey → Option ℚ)
    (p : MetricKey → Bool) (ks : List MetricKey)
    (acc : Bool × (MetricKey → Bool) × List String) :
    (ks.foldl (check_step force m p) acc).1 =
      (acc.1 || ks.any (fun j => breachedB (m j) (THRESHOLDS j) && (force || !p j))) := by
  induction ks generalizing acc with
  | nil => simp
  | cons j rest ih =>
    simp only [List.foldl_cons, List.any_cons, ih, check_step_send]
    cases acc.1 <;> simp [Bool.or_assoc]

lemma check_foldl_flags (force : Bool) (m : MetricKey → Option ℚ)
    (p : MetricKey → Bool) (ks : List MetricKey)
    (acc : Bool × (MetricKey → Bool) × List String) (k : MetricKey) :
    (ks.foldl (check_step force m p) acc).2.1 k =
      if k ∈ ks then breachedB (m k) (THRESHOLDS k) else acc.2.1 k := by
  induction ks generalizing acc with
  | nil => simp
  | cons j rest ih =>
    simp only [List.foldl_cons, ih, List.mem_cons]
    by_cases hk : k ∈ rest
    · simp [hk]
    · by_cases hj : k = j
      · subst hj
        simp [hk, check_step_flags, Function.update]
      · simp [hk, hj, check_step_flags, Function.update_noteq hj]

lemma check_foldl_msg (force : Bool) (m : MetricKey → Option ℚ)
    (p : MetricKey → Bool) (ks : List MetricKey)
    (acc : Bool × (MetricKey → Bool) × List String) :
    (ks.foldl (check_step force m p) acc).2.2 =
      acc.2.2 ++ (ks.filter (fun j => breachedB (m j) (THRESHOLDS j))).map
        (fun j => metricLine j ((m j).getD 0) (THRESHOLDS j)) := by
  induction ks generalizing acc with
  | nil => simp
  | cons j rest ih =>
    simp only [List.foldl_cons, ih, check_step_msg, List.filter_cons]
    by_cases h : breachedB (m j) (THRESHOLDS j) <;> simp [h]

lemma mem_metricKeys (k : MetricKey) : k ∈ metricKeys := by
  cases k <;> simp [metricKeys]

/-- Closed form for the `send_alert` component. -/
lemma check_alerts_send (force : Bool) (m : MetricKey → Option ℚ)
    (p : MetricKey → Bool) :
    (check_alerts force m p).1 =
      metricKeys.any (fun j => breachedB (m j) (THRESHOLDS j) && (force || !p j)) := by
  simp [check_alerts, check_foldl_send]

/-- Closed form for the fresh `alerts` dict: every key is set to whether it
currently breaches. -/
lemma check_alerts_flags (force : Bool) (m : MetricKey → Option ℚ)
    (p : MetricKey → Bool) (k : MetricKey) :
    (check_alerts force m p).2.1 k = breachedB (m k) (THRESHOLDS k) := by
  simp [check_alerts, check_foldl_flags, mem_metricKeys]

/-- Closed form for the rendered message: the header line followed by one
line per currently breaching metric, in iteration order. -/
lemma check_alerts_msg (force : Bool) (m : MetricKey → Option ℚ)
    (p : MetricKey → Bool) :
    (check_alerts force m p).2.2 =
      String.intercalate "\n" ("⚠️ Monitor Alert" ::
        (metricKeys.filter (fun j => breachedB (m j) (THRESHOLDS j))).map
          (fun j => metricLine j ((m j).getD 0) (THRESHOLDS j))) := by
  simp [check_alerts, check_foldl_msg]

/-- Consecutive scheduled runs of monitor.py on an unchanged sample: each run
computes `check_alerts`, persists the fresh `alerts` dict, and the next run
loads it as `prev_alerts`; the list collects each run's `send_alert`. -/
def iterate_checks (force : Bool) (m : MetricKey → Option ℚ) :
    (MetricKey → Bool) → Nat → List Bool
  | _, 0 => []
  | p, n + 1 =>
    (check_alerts force m p).1 ::
      iterate_checks force m (check_alerts force m p).2.1 n

/-- The flags map produced by any evaluation of the sample `m`. -/
def freshFlags (m : MetricKey → Option ℚ) : MetricKey → Bool :=
  fun k => breachedB (m k) (THRESHOLDS k)

lemma check_alerts_flags_eq (force : Bool) (m : MetricKey → Option ℚ)
    (p : MetricKey → Bool) : (check_alerts force m p).2.1 = freshFlags m := by
  funext k
  rw [check_alerts_flags]
  rfl

lemma send_after_fresh (m : MetricKey → Option ℚ) :
    (check_alerts false m (freshFlags m)).1 = false := by
  rw [check_alerts_send]
  simp [freshFlags]

lemma iterate_checks_fresh (m : MetricKey → Option ℚ) (n : Nat) :
    iterate_checks false m (freshFlags m) n = List.replicate n false := by
  induction n with
  | zero => rfl
  | succ k ih =>
    rw [iterate_checks, send_after_fresh, check_alerts_flags_eq, ih,
      List.replicate_succ]

/-- Concrete sample used as a test input: `temp` sensor unavailable, the
other metrics far below their thresholds. -/
def c2_metrics : MetricKey → Option ℚ :=
  fun k => match k with
  | .temp => none
  | _ => some 10

/-- Concrete previous flags used as a test input: only `temp` was flagged. -/
def c2_prev : MetricKey → Bool := fun k => decide (k = .temp)

lemma iterate_checks_forced (m : MetricKey → Option ℚ) (k₀ : MetricKey)
    (hb : breachedB (m k₀) (THRESHOLDS k₀) = true) (p : MetricKey → Bool)
    (n : Nat) : iterate_checks true m p n = List.replicate n true := by
  induction n generalizing p with
  | zero => rfl
  | succ j ih =>
    rw [iterate_checks, ih, List.replicate_succ, check_alerts_send]
    have : metricKeys.any
        (fun j => breachedB (m j) (THRESHOLDS j) && (true || !p j)) = true :=
      List.any_eq_true.2 ⟨k₀, mem_metricKeys k₀, by simp [hb]⟩
    rw [this]

end Monitor

/-! ### Maintenance module (src/maintenance/scripts/maintenance.py)

`run_command` launches an external process, streams its combined
stdout/stderr, and classifies the run: `(True, output)` on exit status zero,
`(False, output)` on a non-zero exit, `(False, str(e))` when an exception is
raised while launching or communicating.  The external world is modelled as
the outcome the process machinery yields for a given command. -/

namespace Maintenance

inductive TaskName | os_update | pihole_update | gravity | clear_logs
  deriving DecidableEq

/-- Outcome of the external process machinery: either the process ran to
completion with an exit status and its streamed (stripped) output lines, or
an exception was raised while launching or communicating with it. -/
inductive ProcOutcome
  | completed (returncode : Int) (lines : List String)
  | raised (err : String)

/-- `run_command` (lines 103-135 of maintenance.py), with the process
machinery's outcome made explicit; returns `(success, output)`. -/
def run_command (o : ProcOutcome) : Bool × String :=
  match o with
  | .completed returncode lines =>
    if returncode ≠ 0 then (false, String.intercalate "\n" lines)
    else (true, String.intercalate "\n" lines)
  | .raised e => (false, e)

/-- One sub-task: `os_update` / `pihole_update` / `gravity_update` /
`clear_logs` each call `run_command` on their fixed shell command; `world`
gives the process outcome of each task's command. -/
def runTask (world : TaskName → ProcOutcome) (t : TaskName) : Bool × String :=
  run_command (world t)

/-- Insertion order of the `tasks_to_run` dict. -/
def taskOrder : List TaskName :=
  [.os_update, .pihole_update, .gravity, .clear_logs]

/-- The `--task` argument: `all` or one named task. -/
inductive TaskArg | all | single (t : TaskName)

/-- The dispatch loop (lines 159-167): `all` runs every sub-task in dict
order collecting one result per task; a single task runs just that one. -/
def runResults (world : TaskName → ProcOutcome) (arg : TaskArg) :
    List (TaskName × Bool × String) :=
  match arg with
  | .all => taskOrder.map (fun t => (t, runTask world t))
  | .single t => [(t, runTask world t)]

structure TaskRecord where
  last_run : String
  success : Bool
  output : String
  deriving DecidableEq

/-- The state-update loop (lines 171-178): each produced result replaces the
record stored under its task name. -/
def updateState (now : String) (state : TaskName → Option TaskRecord)
    (results : List (TaskName × Bool × String)) : TaskName → Option TaskRecord :=
  results.foldl
    (fun st r => Function.update st r.1 (some ⟨now, r.2.1, r.2.2⟩)) state

/-- One line of the Telegram summary for a task result. -/
def summaryLine (t : TaskName) (success : Bool) : String :=
  (match t with
   | .os_update => "os_update"
   | .pihole_update => "pihole_update"
   | .gravity => "gravity"
   | .clear_logs => "clear_logs")
  ++ ": " ++ (if success then "✅ Success" else "❌ Failed")

/-- The summary lines joined into the Telegram message (lines 180-181). -/
def summaryLines (results : List (TaskName × Bool × String)) : List String :=
  results.map (fun r => summaryLine r.1 r.2.1)

lemma updateState_all (world : TaskName → ProcOutcome) (now : String)
    (state : TaskName → Option TaskRecord) (t : TaskName) :
    updateState now state (runResults world .all) t =
      some ⟨now, (runTask world t).1, (runTask world t).2⟩ := by
  cases t <;>
    simp [updateState, runResults, taskOrder, Function.update]

/-- Concrete process world used as a test input: `pihole_update` exits with
status 1, the other tasks exit with status 0. -/
def oneFailWorld : TaskName → ProcOutcome :=
  fun t => match t with
  | .pihole_update => .completed 1 ["update failed"]
  | _ => .completed 0 ["ok"]

end Maintenance

/-! ### Monitor/maintenance bot (src/monitor/scripts/monitor_bot.py)

The control surface.  `run_live_check` shells out to monitor.py with
`--force`; `status_command` replies with a stale-data warning when the live
check failed and then renders the last persisted snapshot.  `run_task`
shells out to maintenance.py for one task, classifies it by exit status,
converts launch exceptions into failed results, and `save_maint_state`
replaces the record stored under the task's name. -/

namespace MonitorBot

open Maintenance

/-- Outcome of one subprocess invocation made by the bot: completion with an
exit status and (stripped) stdout/stderr, or an exception while launching or
communicating. -/
inductive BotProcOutcome
  | completed (returncode : Int) (stdout stderr : String)
  | raised (err : String)

/-- `run_live_check` (lines 84-102): `True` iff the forced monitor run was
launched successfully and exited with status zero. -/
def run_live_check (o : BotProcOutcome) : Bool :=
  match o with
  | .completed returncode _ _ => !decide (returncode ≠ 0)
  | .raised _ => false

/-- The persisted monitor snapshot as read by `load_monitor_state`; absent
fields render as `"N/A"`. -/
structure MonitorSnapshot where
  cpu : Option ℚ
  ram : Option ℚ
  disk : Option ℚ
  temp : Option ℚ
  last_check : Option String

def fmtMetric (v : Option ℚ) : String :=
  match v with
  | some x => toString x
  | none => "N/A"

def fmtCheck (v : Option String) : String := v.getD "N/A"

/-- `format_metrics` (lines 110-117). -/
def format_metrics (s : MonitorSnapshot) : String :=
  "📊 Current System Metrics (Last checked: " ++ fmtCheck s.last_check ++ ")\n"
    ++ "CPU: " ++ fmtMetric s.cpu ++ "%\n"
    ++ "RAM: " ++ fmtMetric s.ram ++ "%\n"
    ++ "Disk: " ++ fmtMetric s.disk ++ "%\n"
    ++ "Temp: " ++ fmtMetric s.temp ++ "°C"

def staleMsg : String := "⚠️ Failed to perform live check. Using last saved metrics."

def noStateMsg : String := "No monitor state available yet."

/-- `status_command` (lines 163-171): the ordered list of reply texts sent
for one status query, given the live-check outcome and the persisted
snapshot (`none` models a missing or empty state file). -/
def status_command (live : BotProcOutcome) (st : Option MonitorSnapshot) :
    List String :=
  (if !run_live_check live then [staleMsg] else [])
    ++ (match st with
        | none => [noStateMsg]
        | some s => [format_metrics s])

/-- `save_maint_state` (lines 135-143): replace the record stored under
`task` wholesale. -/
def save_maint_state (now : String) (state : TaskName → Option TaskRecord)
    (task : TaskName) (success : Bool) (output : String) :
    TaskName → Option TaskRecord :=
  Function.update state task (some ⟨now, success, output⟩)

/-- The `(success, output)` classification of `run_task` (lines 145-158):
success iff exit status zero; stdout plus stderr appended when non-empty; an
exception becomes a failed result carrying the error description. -/
def run_task (o : BotProcOutcome) : Bool × String :=
  match o with
  | .completed returncode stdout stderr =>
    (decide (returncode = 0),
     stdout ++ (if stderr ≠ "" then "\n" ++ stderr else ""))
  | .raised e => (false, e)

end MonitorBot

/-! ### Startup configuration handling of the four entry points

Each script first resolves its configuration file and credentials; the
outcome of that phase is modelled per entry point.  In every script this
phase precedes any write to a state file.  `fatal` is an abort (uncaught
exception or `sys.exit(1)`); `proceed` carries the values the rest of the
run uses.  A credential is `truthy` when present and non-empty, matching
Python truthiness of the fetched value. -/

namespace Startup

/-- The `telegram` section of config.json as fetched by the scripts; `none`
models an absent key. -/
structure RawConfig where
  bot_token : Option String
  chat_id : Option String

def truthy (v : Option String) : Bool :=
  match v with
  | some s => !decide (s = "")
  | none => false

inductive InitOutcome (α : Type)
  | fatal (msg : String)
  | proceed (value : α)

def isFatal {α : Type} : InitOutcome α → Bool
  | .fatal _ => true
  | .proceed _ => false

/-- down_alert.py lines 26-34: a missing config file raises
`FileNotFoundError`; `config["telegram"]["bot_token"]` and `...["chat_id"]`
raise `KeyError` when absent.  All three abort the run. -/
def down_alert_init (cfg : Option RawConfig) : InitOutcome (String × String) :=
  match cfg with
  | none => .fatal "Config file not found"
  | some c =>
    match c.bot_token with
    | none => .fatal "KeyError: bot_token"
    | some tok =>
      match c.chat_id with
      | none => .fatal "KeyError: chat_id"
      | some cid => .proceed (tok, cid)

/-- monitor.py lines 30-39: a missing config file exits with status 1;
credentials are fetched with `.get` and the run proceeds even when they are
absent (alert sending is skipped later). -/
def monitor_init (cfg : Option RawConfig) :
    InitOutcome (Option String × Option String) :=
  match cfg with
  | none => .fatal "[ERROR] Config file not found"
  | some c => .proceed (c.bot_token, c.chat_id)

structure MaintSettings where
  bot_token : Option String
  chat_id : Option String
  test_mode : Bool
  deriving DecidableEq

/-- maintenance.py lines 33-46: a missing config file exits with status 1;
missing or empty credentials only print a warning and force `TEST_MODE`,
then the run proceeds. -/
def maintenance_init (testFlag : Bool) (cfg : Option RawConfig) :
    InitOutcome MaintSettings :=
  match cfg with
  | none => .fatal "[ERROR] Config file not found"
  | some c =>
    if !truthy c.bot_token || !truthy c.chat_id then
      .proceed ⟨c.bot_token, c.chat_id, true⟩
    else
      .proceed ⟨c.bot_token, c.chat_id, testFlag⟩

/-- monitor_bot.py lines 26-38: a missing config file raises
`FileNotFoundError`; a missing or empty bot token raises `ValueError`.
(The subsequent path checks of lines 42-80 are downstream of this phase.) -/
def monitor_bot_init (cfg : Option RawConfig) : InitOutcome String :=
  match cfg with
  | none => .fatal "Config file not found"
  | some c =>
    match c.bot_token with
    | none => .fatal "Telegram bot token missing in config.json"
    | some tok =>
      if tok = "" then .fatal "Telegram bot token missing in config.json"
      else .proceed tok

end Startup

end PiHole

namespace PiHole

open Monitor

/-- C10: the fresh `alerts` dict and the rendered message of `check_alerts`
are identical with `force` set and unset; `force` influences only the
`send_alert` decision. -/
theorem C10_force_noninterference (m : MetricKey → Option ℚ)
    (p : MetricKey → Bool) :
    (check_alerts true m p).2.1 = (check_alerts false m p).2.1
    ∧ (check_alerts true m p).2.2 = (check_alerts false m p).2.2 := by
  refine ⟨?_, ?_⟩
  · rw [check_alerts_flags_eq, check_alerts_flags_eq]
  · rw [check_alerts_msg, check_alerts_msg]

/-- C2 fails on the code: with `temp` sampled as null and its previous alert
flag true, `check_alerts` stores `false` for `temp` — the `else` branch of
the loop clears the flag instead of leaving it at its previous value. -/
theorem C2_null_clears_flag_counterexample :
    c2_metrics MetricKey.temp = none
    ∧ c2_prev MetricKey.temp = true
    ∧ (check_alerts false c2_metrics c2_prev).2.1 MetricKey.temp = false := by
  refine ⟨rfl, by decide, ?_⟩
  rw [check_alerts_flags]
  rfl

/-- C2 (amended): a metric `k` sampled as null has its stored alert flag set
to `false` (cleared, not preserved), counts as not breached — the
notification decision is the disjunction of per-metric breach tests, and
`k`'s test is false — and never appears among the per-metric lines of the
rendered breach message. -/
theorem C2_null_metric_amended (force : Bool) (m : MetricKey → Option ℚ)
    (p : MetricKey → Bool) (k : MetricKey) (h : m k = none) :
    (check_alerts force m p).2.1 k = false
    ∧ breachedB (m k) (THRESHOLDS k) = false
    ∧ (check_alerts force m p).1 =
        metricKeys.any (fun j => breachedB (m j) (THRESHOLDS j) && (force || !p j))
    ∧ k ∉ metricKeys.filter (fun j => breachedB (m j) (THRESHOLDS j))
    ∧ (check_alerts force m p).2.2 =
        String.intercalate "\n" ("⚠️ Monitor Alert" ::
          (metricKeys.filter (fun j => breachedB (m j) (THRESHOLDS j))).map
            (fun j => metricLine j ((m j).getD 0) (THRESHOLDS j))) := by
  have hb : breachedB (m k) (THRESHOLDS k) = false := by rw [h]; rfl
  refine ⟨?_, hb, check_alerts_send force m p, ?_, check_alerts_msg force m p⟩
  · rw [check_alerts_flags, hb]
  · intro hmem
    have := (List.mem_filter.1 hmem).2
    rw [hb] at this
    exact Bool.false_ne_true this

theorem C2_null_metric_amended_witness :
    (check_alerts false c2_metrics c2_prev).2.1 MetricKey.temp = false :=
  (C2_null_metric_amended false c2_metrics c2_prev MetricKey.temp rfl).1

/-- C3: if metric `k₀` breaches its limit and its previous flag is false,
then over `K ≥ 1` consecutive evaluations of the unchanged sample with the
fresh flags fed forward, `force = false` requests notification exactly once,
namely on the first evaluation, while `force = true` requests it on all `K`
evaluations. -/
theorem C3_hysteresis (m : MetricKey → Option ℚ) (k₀ : MetricKey)
    (p : MetricKey → Bool) (K : Nat)
    (hb : breachedB (m k₀) (THRESHOLDS k₀) = true)
    (hp : p k₀ = false) (hK : 1 ≤ K) :
    ((iterate_checks false m p K).count true = 1
      ∧ (iterate_checks false m p K).head? = some true)
    ∧ (iterate_checks true m p K).count true = K := by
  obtain ⟨K', rfl⟩ : ∃ K', K = K' + 1 := ⟨K - 1, (Nat.succ_pred_eq_of_pos hK).symm⟩
  have hfirst : (check_alerts false m p).1 = true := by
    rw [check_alerts_send]
    exact List.any_eq_true.2 ⟨k₀, mem_metricKeys k₀, by simp [hb, hp]⟩
  have hrest : iterate_checks false m p (K' + 1) =
      true :: List.replicate K' false := by
    rw [iterate_checks, hfirst, check_alerts_flags_eq, iterate_checks_fresh]
  refine ⟨⟨?_, ?_⟩, ?_⟩
  · rw [hrest]
    simp [List.count_replicate]
  · rw [hrest]
    rfl
  · rw [iterate_checks_forced m k₀ hb]
    simp [List.count_replicate]

theorem C3_hysteresis_witness :
    (iterate_checks false (fun _ => some 99) (fun _ => false) 3).count true = 1
    ∧ (iterate_checks true (fun _ => some 99) (fun _ => false) 3).count true = 3 :=
  ⟨(C3_hysteresis (fun _ => some 99) MetricKey.cpu (fun _ => false) 3
      (by decide) rfl (by decide)).1.1,
    (C3_hysteresis (fun _ => some 99) MetricKey.cpu (fun _ => false) 3
      (by decide) rfl (by decide)).2⟩

end PiHole

namespace PiHole

open DownAlert

/-- C1: for any persisted record and observation, a service (resp. internet)
alert is emitted iff the derived status differs from the stored one; and over
`n+1` consecutive runs of the identical observation, each run persisting its
updated record, exactly one alert per differing domain is emitted in total
(on the first run), none if the domain already agreed. -/
theorem C1_transition_alert_iff_change (st : DownState) (s i : Bool) (n : Nat) :
    (countService (down_alert_step st s i).1 =
        if st.pihole_status = derivedLabel s then 0 else 1)
    ∧ (countInternet (down_alert_step st s i).1 =
        if st.internet = i then 0 else 1)
    ∧ (countService (down_alert_runs st (List.replicate (n + 1) (s, i))).1 =
        if st.pihole_status = derivedLabel s then 0 else 1)
    ∧ (countInternet (down_alert_runs st (List.replicate (n + 1) (s, i))).1 =
        if st.internet = i then 0 else 1) := by
  refine ⟨countService_step st s i, countInternet_step st s i, ?_, ?_⟩ <;>
    rw [down_alert_runs_replicate]
  · exact countService_step st s i
  · exact countInternet_step st s i

/-- C4: with no persisted state the default record is
`{pihole_status := "unknown", internet := true}`; a first observation with
`internet_up = true` emits no internet alert, and a first observation of the
service in either state emits exactly one service alert. -/
theorem C4_first_run_suppression (s i : Bool) :
    load_state none = ⟨"unknown", true⟩
    ∧ countService (down_alert_step (load_state none) s i).1 = 1
    ∧ countInternet (down_alert_step (load_state none) s true).1 = 0 := by
  refine ⟨rfl, ?_, ?_⟩ <;> cases s <;> cases i <;> decide

end PiHole

namespace PiHole

open Maintenance MonitorBot Startup

/-- C5: running the meta-task `all` executes all four sub-tasks in the fixed
dict order regardless of failures, stores one independent record per
sub-task, and builds the summary from the per-task successes; when exactly
one sub-task fails, the other three records are correct and the results
joined into the summary contain exactly one failure. -/
theorem C5_task_isolation (world : TaskName → ProcOutcome) (now : String)
    (state : TaskName → Option TaskRecord) (f : TaskName)
    (h : ∀ t, (runTask world t).1 = decide (t ≠ f)) :
    (runResults world .all).map Prod.fst = taskOrder
    ∧ (∀ t, t ≠ f → updateState now state (runResults world .all) t =
        some ⟨now, true, (runTask world t).2⟩)
    ∧ (runResults world .all).countP (fun r => !r.2.1) = 1
    ∧ summaryLines (runResults world .all) =
        taskOrder.map (fun t => summaryLine t (decide (t ≠ f))) := by
  refine ⟨by simp [runResults, taskOrder], ?_, ?_, ?_⟩
  · intro t ht
    have hs : (runTask world t).1 = true := by rw [h t]; simp [ht]
    rw [updateState_all, hs]
  · cases f <;> simp [runResults, taskOrder, h]
  · simp [summaryLines, runResults, taskOrder, h]

theorem C5_task_isolation_witness :
    (runResults oneFailWorld .all).countP (fun r => !r.2.1) = 1 :=
  (C5_task_isolation oneFailWorld "2026-10-12" (fun _ => none)
    .pihole_update (by intro t; cases t <;> rfl)).2.2.1

/-- C6: a task run succeeds iff the external process exited with status
zero, in both maintenance.py's `run_command` and monitor_bot.py's
`run_task`; an exception while launching or communicating is converted into
the failed result `(false, error description)` rather than propagating (the
classification functions are total over all outcomes). -/
theorem C6_exit_status_classification :
    (∀ (rc : Int) (lines : List String),
      (Maintenance.run_command (.completed rc lines)).1 = decide (rc = 0)
      ∧ (Maintenance.run_command (.completed rc lines)).2 =
          String.intercalate "\n" lines)
    ∧ (∀ e, Maintenance.run_command (.raised e) = (false, e))
    ∧ (∀ (rc : Int) (out err : String),
        (MonitorBot.run_task (.completed rc out err)).1 = decide (rc = 0))
    ∧ (∀ e, MonitorBot.run_task (.raised e) = (false, e)) := by
  refine ⟨?_, fun e => rfl, fun rc out err => rfl, fun e => rfl⟩
  intro rc lines
  constructor <;>
    · unfold Maintenance.run_command
      by_cases hrc : rc = 0 <;> simp [hrc]

/-- C9: running one named task `T` stores under key `T` a record built only
from this run's result (all fields overwritten wholesale) and leaves the
record under every other task name unchanged, in both maintenance.py's
state-update loop and monitor_bot.py's `save_maint_state`. -/
theorem C9_single_task_frame (world : TaskName → ProcOutcome) (now : String)
    (state : TaskName → Option TaskRecord) (T : TaskName)
    (success : Bool) (output : String) :
    (updateState now state (runResults world (.single T)) T =
        some ⟨now, (runTask world T).1, (runTask world T).2⟩
      ∧ ∀ t, t ≠ T →
          updateState now state (runResults world (.single T)) t = state t)
    ∧ (save_maint_state now state T success output T =
        some ⟨now, success, output⟩
      ∧ ∀ t, t ≠ T → save_maint_state now state T success output t = state t) := by
  refine ⟨⟨?_, ?_⟩, ?_, ?_⟩
  · simp [updateState, runResults, Function.update]
  · intro t ht
    simp [updateState, runResults, Function.update_noteq ht]
  · simp [save_maint_state, Function.update]
  · intro t ht
    simp [save_maint_state, Function.update_noteq ht]

theorem C9_single_task_frame_witness :
    updateState "2026-10-12" (fun _ => none)
      (runResults oneFailWorld (.single .gravity)) .os_update = none :=
  (C9_single_task_frame oneFailWorld "2026-10-12" (fun _ => none)
    .gravity true "out").1.2 .os_update (by decide)

/-- C7 fails on the code: in maintenance.py a config with both credentials
missing is not fatal — the script only warns, forces `TEST_MODE`, and
proceeds. -/
theorem C7_credentials_not_fatal_counterexample :
    isFatal (maintenance_init false (some ⟨none, none⟩)) = false
    ∧ maintenance_init false (some ⟨none, none⟩) =
        .proceed ⟨none, none, true⟩ :=
  ⟨rfl, rfl⟩

/-- C7 (amended): a missing configuration file is fatal before any state
mutation in every entry point; a missing credential is fatal only in
down_alert.py (uncaught `KeyError`) and monitor_bot.py (`ValueError` for a
missing or empty token), while maintenance.py proceeds with `TEST_MODE`
forced on and monitor.py proceeds unconditionally, skipping alert delivery
later. -/
theorem C7_config_error_handling_amended (testFlag : Bool) :
    (isFatal (down_alert_init none) = true
      ∧ isFatal (monitor_init none) = true
      ∧ isFatal (maintenance_init testFlag none) = true
      ∧ isFatal (monitor_bot_init none) = true)
    ∧ (∀ cid, isFatal (down_alert_init (some ⟨none, cid⟩)) = true)
    ∧ (∀ tok, isFatal (down_alert_init (some ⟨some tok, none⟩)) = true)
    ∧ (∀ c : RawConfig, truthy c.bot_token = false →
        isFatal (monitor_bot_init (some c)) = true)
    ∧ (∀ c : RawConfig, (truthy c.bot_token && truthy c.chat_id) = false →
        maintenance_init testFlag (some c) =
          .proceed ⟨c.bot_token, c.chat_id, true⟩)
    ∧ (∀ c : RawConfig, monitor_init (some c) =
        .proceed (c.bot_token, c.chat_id)) := by
  refine ⟨⟨rfl, rfl, rfl, rfl⟩, fun cid => rfl, fun tok => rfl, ?_, ?_, fun c => rfl⟩
  · intro c h
    obtain ⟨tk, cd⟩ := c
    cases tk with
    | none => rfl
    | some t =>
      have ht : t = "" := by simpa [truthy] using h
      subst ht
      rfl
  · intro c h
    obtain ⟨tk, cd⟩ := c
    cases htk : truthy tk <;> cases hcd : truthy cd <;>
      simp_all [maintenance_init]

theorem C7_config_error_handling_amended_witness :
    maintenance_init false (some ⟨none, some "id"⟩) =
      .proceed ⟨none, some "id", true⟩ :=
  (C7_config_error_handling_amended false).2.2.2.2.1 ⟨none, some "id"⟩ rfl

/-- C8: when the forced re-check fails (launch exception or non-zero exit,
i.e. `run_live_check` returns false), the status query still answers: it
first sends the stale-data warning and then renders the last persisted
snapshot. -/
theorem C8_stale_reply (o : BotProcOutcome) (s : MonitorSnapshot)
    (h : run_live_check o = false) :
    status_command o (some s) = [staleMsg, format_metrics s] := by
  simp [status_command, h]

theorem C8_stale_reply_witness :
    status_command (.raised "boom") (some ⟨none, none, none, none, none⟩) =
      [staleMsg, format_metrics ⟨none, none, none, none, none⟩] :=
  C8_stale_reply (.raised "boom") ⟨none, none, none, none, none⟩ rfl

end PiHole
